import Mathlib

/-!
Verification of the NRDC-VT-IUU-Fishing ingestion core against its design
specification.  The Python sources under `src/app` are shallowly embedded:
pydantic/Beanie document classes become structures, the Beanie event hooks
(`@model_validator`, `@before_event`, `@after_event`) become explicit pure
functions applied at the points where Beanie fires them, and the MongoDB
document store becomes an explicit in-memory `Database` value threaded through
the operations.  Cross-document `Link` fields are modelled as ID lists, the
representation the design notes themselves prescribe ("entities own only IDs
of their peers, the store owns the objects").  Async methods are modelled as
pure state transformers; a raised exception becomes an `Except.error` / `none`
result.  Fields never read by any verified operation (titles, authors,
publication dates, confidence scores, the large extraction sub-records) are
omitted from the structures.
-/

deriving instance DecidableEq for Except

namespace NRDC

/-- Modelled: `hashlib.sha256(s.encode()).hexdigest()` (Python standard library,
external to this repository).  The digest is a pure, deterministic function of
the input string; its collision resistance is abstracted by an injective
tagging of the input. -/
def sha256hex (s : String) : String := "sha256:" ++ s

theorem sha256hex_injective : Function.Injective sha256hex := by
  intro a b h
  have hd := congrArg String.data h
  simp only [sha256hex, String.data_append] at hd
  exact String.ext (List.append_cancel_left hd)

/-- Python truthiness of an optional string: `None` and `""` are falsy. -/
def strTruthy : Option String → Bool
  | none => false
  | some s => !(s == "")

/-! ## Data model: incidents (src/app/models/incidents.py)

Only the fields read by `generate_fingerprint`, `add_source`, `remove_source`,
`delete` and `find_potential_duplicates` are carried. -/

/-- `EventData` (incidents.py): `eventDate : str | None`, `eventLocation : str`
(required, but may still be the empty string, which Python treats as falsy). -/
structure EventData where
  eventDate : Option String
  eventLocation : String
deriving Repr, DecidableEq

/-- `CatchSourceData` (incidents.py): only `vesselName : str | None` is read by
the verified operations. -/
structure CatchSourceData where
  vesselName : Option String
deriving Repr, DecidableEq

/-- `ExtractedIncidentData` (incidents.py): the two optional sub-records read
by `generate_fingerprint` and `find_potential_duplicates`. -/
structure ExtractedIncidentData where
  catchSourceInformation : Option CatchSourceData
  eventData : Option EventData
deriving Repr, DecidableEq

/-- The four literals of `ArticleScopeClassification.articleType`
(articles.py): "Single Incident", "Multiple Incidents", "Industry Overview",
"Unrelated to IUU Fishing". -/
inductive ArticleType where
  | singleIncident
  | multipleIncidents
  | industryOverview
  | unrelated
deriving Repr, DecidableEq

/-- `ArticleScopeClassification` (articles.py).  The `confidence : float`
field is never read by the verified operations and is omitted (floating
point). -/
structure ArticleScopeClassification where
  articleType : ArticleType
deriving Repr, DecidableEq

/-- `IncidentReport` (incidents.py).  `sources : List[Link[Source]]` and
`primary_source : Link[Source] | None` are modelled as ID lists — the code
compares links by `.id` throughout.  Beanie's `id` is `None` until the first
insert; the model lets `Database.insertIncident` assign it. -/
structure IncidentReport where
  id : Nat
  incident_fingerprint : Option String
  sources : List Nat
  primary_source : Option Nat
  extracted_information : ExtractedIncidentData
deriving Repr, DecidableEq

/-- `Source` (articles.py).  `incidents : List[Link[IncidentReport]]` is
modelled as an ID list; `article_hash` defaults to `""`. -/
structure Source where
  id : Nat
  url : Option String
  article_text : String
  article_hash : String
  article_scope : Option ArticleScopeClassification
  incidents : List Nat
deriving Repr, DecidableEq

/-- `IncidentReport.generate_fingerprint` (incidents.py 575-602), the
`@before_event([Insert, Replace])` hook: when `incident_fingerprint` is falsy
(`None` or `""`), derive it from the canonical
`f"{name}_{date}_{location}"` string, each component defaulted to its
sentinel when the field (or its parent record) is absent or empty. -/
def IncidentReport.generate_fingerprint (r : IncidentReport) : IncidentReport :=
  if strTruthy r.incident_fingerprint then r
  else
    let eventData := r.extracted_information.eventData
    let catchSourceInfo := r.extracted_information.catchSourceInformation
    let location :=
      match eventData with
      | some e => if e.eventLocation ≠ "" then e.eventLocation else "default_location"
      | none => "default_location"
    let date :=
      match eventData with
      | some e =>
        match e.eventDate with
        | some d => if d ≠ "" then d else "default_date"
        | none => "default_date"
      | none => "default_date"
    let name :=
      match catchSourceInfo with
      | some c =>
        match c.vesselName with
        | some v => if v ≠ "" then v else "default_vessel"
        | none => "default_vessel"
      | none => "default_vessel"
    let fp := sha256hex (name ++ "_" ++ date ++ "_" ++ location)
    { r with incident_fingerprint := some fp }

/-- `IncidentReport.add_source` (incidents.py 604-629): append the source to
`self.sources` unless a link with its id is already present, promote it to
`primary_source` when `is_primary`, then symmetrically append `self` to
`source.incidents` unless already present.  The two `await ... save()` calls
persist exactly the records returned here. -/
def IncidentReport.add_source (incident : IncidentReport) (source : Source)
    (is_primary : Bool) : IncidentReport × Source :=
  let sources' :=
    if source.id ∈ incident.sources then incident.sources
    else incident.sources ++ [source.id]
  let incident' : IncidentReport :=
    { incident with
      sources := sources'
      primary_source := if is_primary then some source.id else incident.primary_source }
  let source' : Source :=
    if incident.id ∈ source.incidents then source
    else { source with incidents := source.incidents ++ [incident.id] }
  (incident', source')

/-- `IncidentReport.remove_source` (incidents.py 631-648): drop every link with
the source's id from `self.sources`; if the primary source was the removed one,
reassign it to `self.sources[0]` of the remaining list or `None`; drop `self`
from `source.incidents`. -/
def IncidentReport.remove_source (incident : IncidentReport) (source : Source) :
    IncidentReport × Source :=
  let sources' := incident.sources.filter (fun sid => sid ≠ source.id)
  let primary' :=
    if incident.primary_source = some source.id then sources'.head?
    else incident.primary_source
  let incident' : IncidentReport :=
    { incident with sources := sources', primary_source := primary' }
  let source' : Source :=
    { source with incidents := source.incidents.filter (fun iid => iid ≠ incident.id) }
  (incident', source')

/-- `IndustryOverview` (incidents.py 545-552): one overview record per
qualifying document, linking back to its source.  The nested
`IndustryOverviewExtract` payload is opaque to every verified operation and is
carried as its serialized form. -/
structure IndustryOverview where
  source : Source
  extracted_information : String
deriving Repr, DecidableEq

/-- `Log` (logs.py 23-37): the audit-trail document.  The snapshot/diff fields
are omitted: no verified operation ever constructs a `Log` (see
`Source.afterInsertLogs`). -/
structure Log where
  document_id : Nat
  collection_name : String
  operation : String
deriving Repr, DecidableEq

/-- `LogMixin._log_insert` (logs.py 61-72): the after-Insert handler that
emits one `Log` per insert — but only for classes that list `LogMixin` among
their bases, which none of the document classes do. -/
def LogMixin.log_insert (collection_name : String) (document_id : Nat) : Log :=
  { document_id := document_id, collection_name := collection_name, operation := "insert" }

/-- The after-Insert handlers registered on the `Source` class
(articles.py 52-110): `Source(Document)` declares only `generate_hash` (a
before-Insert hook) and does not inherit `LogMixin`, so no `_log_insert`
handler is registered and no audit entry is emitted. -/
def Source.afterInsertLogs (_s : Source) : List Log := []

/-- The persisted store: the `sources` and `incidents` Mongo collections, the
append-only `logs` collection, and the next ObjectId to assign. -/
structure Database where
  sources : List Source
  incidents : List IncidentReport
  overviews : List IndustryOverview
  logs : List Log
  nextId : Nat
deriving Repr, DecidableEq

def Database.empty : Database :=
  { sources := [], incidents := [], overviews := [], logs := [], nextId := 1 }

/-- `IncidentReport.delete` (incidents.py 650-663).  The loop body
`self.remove_source(source)` calls the async method WITHOUT `await`: it only
creates a coroutine object that is never run, so no detach executes and no
source record changes.  The in-memory clearing of `self.sources` and
`self.primary_source` is never saved; `super().delete()` then removes the
incident document itself.  Net store effect: only the incident disappears. -/
def Database.deleteIncident (db : Database) (incident : IncidentReport) : Database :=
  { db with incidents := db.incidents.filter (fun r => r.id ≠ incident.id) }

/-- `IncidentReport.find_potential_duplicates` (incidents.py 665-679): read the
candidate's vessel name (`getattr` on a `None` `catchSourceInformation` yields
`None`); when truthy, the Mongo query
`cls.find(cls.extracted_information.catchSourceInformation.vesselName == vessel_name)`
returns the stored incidents whose vessel-name path equals it; otherwise
return `[]`. -/
def IncidentReport.find_potential_duplicates (stored : List IncidentReport)
    (incident_data : ExtractedIncidentData) : List IncidentReport :=
  let vessel_name := incident_data.catchSourceInformation.bind (fun c => c.vesselName)
  match vessel_name with
  | some v =>
    if v ≠ "" then
      stored.filter (fun r =>
        r.extracted_information.catchSourceInformation.bind (fun c => c.vesselName) = some v)
    else []
  | none => []

/-! ## SourceStore operations (src/app/models/articles.py, Beanie semantics)

Beanie fires `@model_validator(mode="after")` whenever a model instance is
constructed, `@before_event(Insert)` hooks on `insert()`, and
`@before_event(Replace)` hooks on `save()`/`replace()` of an already-persisted
document.  The Mongo unique index on `article_hash` and the sparse unique
index on `url` (articles.py 86-96) reject a write that would duplicate either
key with `DuplicateKeyError`. -/

/-- `Source.generate_hash_on_creation` (articles.py 98-103), the
`@model_validator(mode="after")`: on construction, derive `article_hash` from
`article_text` only when the hash is still falsy and the text is truthy. -/
def Source.generate_hash_on_creation (s : Source) : Source :=
  if s.article_hash = "" ∧ s.article_text ≠ "" then
    { s with article_hash := sha256hex s.article_text }
  else s

/-- `Source.generate_hash` (articles.py 105-110), the
`@before_event([Insert, Replace])` hook: recompute `article_hash` from the
CURRENT `article_text` on every insert and on every replace (the hook is
unconditional apart from the truthiness of the text). -/
def Source.generate_hash (s : Source) : Source :=
  if s.article_text ≠ "" then { s with article_hash := sha256hex s.article_text }
  else s

/-- Constructing a `Source` from text (e.g. `ContentExtractor.from_pdf`,
content_extraction.py 38-49, or a direct `Source(article_text=...)` call):
pydantic runs the `mode="after"` validator, so the hash is derived at
creation. -/
def Source.make (text : String) (url : Option String) : Source :=
  Source.generate_hash_on_creation
    { id := 0, url := url, article_text := text, article_hash := "",
      article_scope := none, incidents := [] }

/-- `pymongo.errors.DuplicateKeyError`, the distinguishable duplicate-key
failure of the document-store boundary. -/
inductive DBError where
  | duplicateKey
deriving Repr, DecidableEq

/-- `Source.find_one(Source.url == url)` (content_extraction.py 19,
routes.py 193). -/
def Database.findSourceByUrl (db : Database) (url : String) : Option Source :=
  db.sources.find? (fun d => d.url == some url)

/-- Beanie `insert()` on a `Source`: run the before-Insert hook
(`generate_hash` — the only hook the class declares), assign an id, reject a
duplicate `article_hash` or `url` via the unique indexes, append the document,
and run the after-Insert hooks — `Source.afterInsertLogs`, which is empty
because `Source` does not inherit `LogMixin`. -/
def Database.insertSource (db : Database) (doc : Source) :
    Except DBError (Database × Source) :=
  let doc := doc.generate_hash
  if db.sources.any (fun d => d.article_hash == doc.article_hash) then
    .error .duplicateKey
  else if (doc.url.map (fun u => db.sources.any (fun d => d.url == some u))).getD false then
    .error .duplicateKey
  else
    let stored := { doc with id := db.nextId }
    .ok ({ db with
            sources := db.sources ++ [stored]
            logs := db.logs ++ Source.afterInsertLogs stored
            nextId := db.nextId + 1 },
         stored)

/-- Beanie `save()` on an already-persisted `Source`: a Replace.  It runs the
before-Replace hook `generate_hash`, then overwrites the stored document with
the same id; a replace whose `article_hash` now collides with a DIFFERENT
stored document violates the unique index.  No after-Replace audit hook is
registered (no `LogMixin`). -/
def Database.saveSource (db : Database) (doc : Source) :
    Except DBError (Database × Source) :=
  let doc := doc.generate_hash
  if db.sources.any (fun d => d.id != doc.id && d.article_hash == doc.article_hash) then
    .error .duplicateKey
  else
    .ok ({ db with
            sources := db.sources.map (fun d => if d.id == doc.id then doc else d) },
         doc)

/-- Beanie `insert()` on an `IncidentReport`: run the before-Insert hook
`generate_fingerprint`, assign an id, append.  `incident_fingerprint` carries
no unique index (collisions are expected), and no audit hook is registered. -/
def Database.insertIncident (db : Database) (r : IncidentReport) :
    Database × IncidentReport :=
  let r := r.generate_fingerprint
  let stored := { r with id := db.nextId }
  ({ db with incidents := db.incidents ++ [stored], nextId := db.nextId + 1 }, stored)

/-- Beanie `save()` on an already-persisted `IncidentReport`: a Replace, which
runs the before-Replace hook `generate_fingerprint` and overwrites the stored
document with the same id. -/
def Database.saveIncident (db : Database) (r : IncidentReport) :
    Database × IncidentReport :=
  let r := r.generate_fingerprint
  ({ db with incidents := db.incidents.map (fun d => if d.id == r.id then r else d) }, r)

/-! ## Orchestrated run (src/app/dspy_files, src/app/incident_service.py,
src/app/routes.py)

The external collaborators — the web scraper/content filter chain behind
`ContentExtractor.from_url`, and the dspy classifier/extractor calls — are
opaque network services.  They are modelled as a record of pure functions
where a `none` result stands for a raised exception.  An event trace records,
in order, the classifier invocation, extraction work, and each persistence of
a document, so that temporal claims about the run can be stated. -/

/-- `PipelineResult` (news_analysis.py 19-27): the closed outcome enum.  Its
six members are exactly these; there is no duplicate-detected member. -/
inductive PipelineResult where
  | success
  | failed_extraction
  | failed_classification
  | failed_analysis
  | failed_formatting
  | unrelated_content
deriving Repr, DecidableEq

/-- `PipelineOutput` (news_analysis.py 30-49).  The field
`incidents : List[IncidentReport]` admits no `None` element: pydantic
validates the list on construction. -/
structure PipelineOutput where
  status : PipelineResult
  source : Option Source
  incidents : List IncidentReport
  industry_overview : Option IndustryOverview
  error_message : Option String
deriving Repr, DecidableEq

/-- Observable events of one orchestrated run, in order: the external
classifier call, external extraction work, and each document persistence
(`insert`).  `persistSource` records whether the document carried its scope
classification when it was written. -/
inductive Ev where
  | classifierCall
  | extractionCall
  | persistSource (scopeSet : Bool)
  | persistIncident
  | persistOverview
deriving Repr, DecidableEq

/-- The external collaborator boundary (spec section 6), as pure functions;
`none` models a raised exception.  `scrape` is the network fetch plus content
filtering inside `ArticleExtractionPipeline.process_url`; its result is
immaterial to the run's outcome because the subsequent `ArticleData`
construction raises either way (see
`AnalysisOrchestrator.run_full_analysis_from_url`).  `extractSingle` returns
the module's `parsed_data`, which can itself be `None` even on a successful
call. -/
structure Externals where
  scrape : String → Option String
  classify : String → Option ArticleScopeClassification
  extractSingle : String → Option (Option ExtractedIncidentData)
  extractOverview : String → Option String

/-- The shapes of `dspy.Prediction` that `AnalysisPipeline.run`
(analysis_pipeline.py 24-73) can actually return.  There is no
multiple-incidents shape: that branch raises before building one (see
`AnalysisPipeline.routeScope`). -/
inductive PredictionData where
  | noData
  | overviewData (parsed : String)
  | singleData (parsed : Option ExtractedIncidentData)
deriving Repr, DecidableEq

/-- The routing switch of `AnalysisPipeline.run` (analysis_pipeline.py 33-69)
on an already-classified source, together with the extraction modules it
invokes (modules.py).  The `Multiple Incidents` arm calls
`IncidentAnalysisModule.aforward`, whose line 38 reads `self.multiIncident` —
an attribute that does not exist (`__init__` defines `multiIncidentText`), so
the call raises `AttributeError` before any span is split or extracted:
modelled as `none` with no extraction event. -/
def AnalysisPipeline.routeScope (ext : Externals) (source : Source)
    (t : ArticleType) : Option PredictionData × List Ev :=
  match t with
  | .unrelated => (some .noData, [])
  | .industryOverview =>
    match ext.extractOverview source.article_text with
    | none => (none, [Ev.extractionCall])
    | some p => (some (.overviewData p), [Ev.extractionCall])
  | .multipleIncidents => (none, [])
  | .singleIncident =>
    match ext.extractSingle source.article_text with
    | none => (none, [Ev.extractionCall])
    | some pd => (some (.singleData pd), [Ev.extractionCall])

/-- `AnalysisPipeline.run` (analysis_pipeline.py 24-73) with `SourceScope.run`
(source_scope.py 10-28) inlined: when the source has no scope, invoke the
external classifier once and assign the result to the IN-MEMORY source object
— neither `SourceScope.run` nor `AnalysisPipeline.run` calls `save()`, so
nothing is persisted here.  Returns the prediction (`none` = the step raised),
the possibly-updated source, and the trace. -/
def AnalysisPipeline.run (ext : Externals) (source : Source) :
    Option PredictionData × Source × List Ev :=
  match source.article_scope with
  | some c =>
    let r := AnalysisPipeline.routeScope ext source c.articleType
    (r.1, source, r.2)
  | none =>
    match ext.classify source.article_text with
    | none => (none, source, [Ev.classifierCall])
    | some c =>
      let source' := { source with article_scope := some c }
      let r := AnalysisPipeline.routeScope ext source' c.articleType
      (r.1, source', Ev.classifierCall :: r.2)

/-- `format_report` (postprocessing.py 15-32) as invoked by
`AnalysisOrchestrator._process_incident_prediction` (news_analysis.py
169-185): building `IncidentReport(**report_data)` raises a pydantic
`ValidationError` when `parsed_data` is `None` (the model requires
`extracted_information`); `_process_incident_prediction` catches it and
returns `None`.  The report is constructed unpersisted (no id, no
fingerprint, no links). -/
def process_incident_prediction (parsed_data : Option ExtractedIncidentData) :
    Option IncidentReport :=
  match parsed_data with
  | none => none
  | some d =>
    some { id := 0, incident_fingerprint := none, sources := [],
           primary_source := none, extracted_information := d }

/-- The `Multiple Incidents` arm of `run_full_analysis_from_url`
(news_analysis.py 115-136), parametrised by the per-span results of
`_process_incident_prediction`: the loop appends `processed` to
`incident_list` even when it is `None` (the failure is only logged), and then
constructs `PipelineOutput(status=SUCCESS, incidents=incident_list)`.  With a
`None` element that construction raises a pydantic `ValidationError`
(`incidents` is typed `List[IncidentReport]`), which the handler at line 155
turns into a FAILED_FORMATTING output carrying no incidents.  (With the
current code this arm is unreachable: `prediction.incidents` is never
produced, see `AnalysisPipeline.routeScope`.) -/
def multipleIncidentsArm (source : Source)
    (processed : List (Option IncidentReport)) : PipelineOutput :=
  if processed.all (fun p => p.isSome) then
    { status := .success, source := some source,
      incidents := processed.filterMap id, industry_overview := none,
      error_message := none }
  else
    { status := .failed_formatting, source := some source, incidents := [],
      industry_overview := none,
      error_message := some "ValidationError" }

/-- The analysis-and-routing phase of `run_full_analysis_from_url`
(news_analysis.py 70-167) after a source is in hand: run the pipeline; a
raised step becomes FAILED_ANALYSIS carrying the (possibly scope-updated)
source; otherwise branch on the classified scope exactly as the code does. -/
def AnalysisOrchestrator.analysisPhase (ext : Externals) (source0 : Source) :
    PipelineOutput × List Ev :=
  match AnalysisPipeline.run ext source0 with
  | (none, source, ev) =>
    ({ status := .failed_analysis, source := some source, incidents := [],
       industry_overview := none, error_message := some "analysis raised" }, ev)
  | (some .noData, source, ev) =>
    ({ status := .unrelated_content, source := some source, incidents := [],
       industry_overview := none, error_message := none }, ev)
  | (some (.overviewData p), source, ev) =>
    ({ status := .success, source := some source, incidents := [],
       industry_overview := some { source := source, extracted_information := p },
       error_message := none }, ev)
  | (some (.singleData parsed), source, ev) =>
    match process_incident_prediction parsed with
    | none =>
      ({ status := .failed_formatting, source := some source, incidents := [],
         industry_overview := none,
         error_message := some "Failed to format incident report" }, ev)
    | some inc =>
      ({ status := .success, source := some source, incidents := [inc],
         industry_overview := none, error_message := none }, ev)

/-- `AnalysisOrchestrator.run_full_analysis_from_url` (news_analysis.py
57-167).  `ContentExtractor.from_url` (content_extraction.py 16-35) first
looks the URL up in the store and returns the EXISTING document when found.
On a fresh URL it calls `ArticleExtractionPipeline.process_url`, and that
call can never yield a document: when the fetch or filtering fails it raises,
and when they succeed, scraper.py 266-271 constructs
`ArticleData(url=…, title=…, raw_html=…, clean_content=…)` WITHOUT the
model's required `text` field — a guaranteed pydantic ValidationError,
re-raised as "Pipeline failed for {url}" — and content_extraction.py 25 would
then read `prediction.source`, an attribute `ArticleData` does not have.
Either way the exception propagates out of `from_url`, so the fresh-URL arm
always returns FAILED_EXTRACTION with no source, whatever the fetched
content. -/
def AnalysisOrchestrator.run_full_analysis_from_url (ext : Externals)
    (db : Database) (url : String) : PipelineOutput × List Ev :=
  match db.findSourceByUrl url with
  | some existing => AnalysisOrchestrator.analysisPhase ext existing
  | none =>
    match ext.scrape url with
    | none =>
      ({ status := .failed_extraction, source := none, incidents := [],
         industry_overview := none,
         error_message := some "content extraction failed" }, [])
    | some _ =>
      ({ status := .failed_extraction, source := none, incidents := [],
         industry_overview := none,
         error_message := some "content extraction failed" }, [])

/-- The exceptions that can escape `IncidentService._create_report`: a
re-raised store error (`raise e`) or an `HTTPException` (422 when the
pipeline status is not success). -/
inductive ServiceError where
  | db (e : DBError)
  | http (code : Nat) (detail : String)
deriving Repr, DecidableEq

/-- The per-incident persistence loop of `IncidentService._create_report`
(incident_service.py 61-72): insert the report (before-Insert hook derives its
fingerprint and an id is assigned), then `incident.add_source(source,
is_primary=True)`, whose two `save()` calls persist both sides; the saved
reports are collected in order.  A store error is re-raised. -/
def IncidentService.persistIncidents (db : Database) (source : Source) :
    List IncidentReport →
      Database × Except ServiceError (Source × List IncidentReport) × List Ev
  | [] => (db, .ok (source, []), [])
  | inc :: rest =>
    let r1 := db.insertIncident inc
    let linked := r1.2.add_source source true
    let r2 := r1.1.saveIncident linked.1
    match r2.1.saveSource linked.2 with
    | .error e => (r2.1, .error (.db e), [Ev.persistIncident])
    | .ok (db3, s2) =>
      match IncidentService.persistIncidents db3 s2 rest with
      | (db4, .error e, evs) => (db4, .error e, Ev.persistIncident :: evs)
      | (db4, .ok (s3, accs), evs) =>
        (db4, .ok (s3, r2.2 :: accs), Ev.persistIncident :: evs)

/-- `IncidentService._create_report` (incident_service.py 26-83): no source →
return the output unchanged; insert the source (a `DuplicateKeyError` is
re-raised); UNRELATED_CONTENT → done; nothing extracted → return the output;
a non-success status with results → HTTPException 422; otherwise persist the
incident reports (linking each to the source as primary) or the overview. -/
def IncidentService.create_report (db : Database) (output : PipelineOutput) :
    Database × Except ServiceError PipelineOutput × List Ev :=
  match output.source with
  | none => (db, .ok output, [])
  | some source =>
    match db.insertSource source with
    | .error e => (db, .error (.db e), [])
    | .ok (db1, stored) =>
      let ev0 := [Ev.persistSource stored.article_scope.isSome]
      if output.status = PipelineResult.unrelated_content then
        (db1, .ok { output with source := some stored }, ev0)
      else if output.incidents.isEmpty && output.industry_overview.isNone then
        (db1, .ok { output with source := some stored }, ev0)
      else if output.status ≠ PipelineResult.success then
        (db1, .error (.http 422 "Analysis failed"), ev0)
      else if !output.incidents.isEmpty then
        match IncidentService.persistIncidents db1 stored output.incidents with
        | (db2, .error e, evs) => (db2, .error e, ev0 ++ evs)
        | (db2, .ok (_, saved), evs) =>
          (db2, .ok { output with source := some stored, incidents := saved },
           ev0 ++ evs)
      else
        match output.industry_overview with
        | some ov =>
          ({ db1 with overviews := db1.overviews ++ [ov] },
           .ok { output with source := some stored }, ev0 ++ [Ev.persistOverview])
        | none =>
          -- unreachable: guarded by `has_overview` above
          (db1, .error (.http 500 "no overview"), ev0)

/-- `IncidentService.create_report_from_url` (incident_service.py 91-105):
one orchestrated run followed by `_create_report`. -/
def IncidentService.create_report_from_url (ext : Externals) (db : Database)
    (url : String) : Database × Except ServiceError PipelineOutput × List Ev :=
  let run := AnalysisOrchestrator.run_full_analysis_from_url ext db url
  let fin := IncidentService.create_report db run.1
  (fin.1, fin.2.1, run.2 ++ fin.2.2)

/-- What the submit endpoint returns: the pipeline output on success, or an
HTTP error. -/
inductive ApiResult where
  | ok (out : PipelineOutput)
  | httpError (code : Nat) (detail : String)
deriving Repr, DecidableEq

/-- `_handle_json_request`, URL branch (routes.py 104-135 with
`_check_for_existing_url`, 187-197): a URL already in the store is rejected
with HTTP 409 before any analysis; an exception escaping the service — e.g. a
propagated `DuplicateKeyError` — is mapped to HTTP 500 by the surrounding
handlers; an `HTTPException` is re-raised as is. -/
def handle_json_url (ext : Externals) (db : Database) (url : String) :
    Database × ApiResult × List Ev :=
  match db.findSourceByUrl url with
  | some _ => (db, .httpError 409 ("Source already exists for " ++ url), [])
  | none =>
    match IncidentService.create_report_from_url ext db url with
    | (db', .ok out, ev) => (db', .ok out, ev)
    | (db', .error (.http code detail), ev) => (db', .httpError code detail, ev)
    | (db', .error (.db _), ev) =>
      (db', .httpError 500 "An unexpected error occurred while processing the request.", ev)

/-! ## ContentFilter (src/app/dspy_files/scraper.py)

A parsed HTML document is a forest of nodes: text, comments, and tags carrying
a name, a class list and an id attribute (the only attributes the filter ever
reads).  BeautifulSoup's serialize/re-parse round-trip between stages
(`str(soup)` / `BeautifulSoup(html)`) is the identity on this model, so the
"last successful HTML" is carried as its parsed forest. -/

inductive Html where
  | text (s : String)
  | comment (s : String)
  | tag (name : String) (classes : List String) (idAttr : String) (children : List Html)
deriving Repr

/-- Python `str.strip()`: drop leading and trailing whitespace, as
BeautifulSoup `get_text(strip=True)` applies it to each string segment. -/
def pyStrip (s : String) : String :=
  String.mk (((s.toList.dropWhile Char.isWhitespace).reverse.dropWhile
    Char.isWhitespace).reverse)

mutual
/-- `soup.get_text(strip=True)`: every string segment, stripped and
concatenated (a BeautifulSoup `Comment` is a `NavigableString`, so comment
text is included). -/
def Html.getTextStrip : Html → String
  | .text s => pyStrip s
  | .comment s => pyStrip s
  | .tag _ _ _ ch => Html.getTextStripList ch

def Html.getTextStripList : List Html → String
  | [] => ""
  | h :: t => Html.getTextStrip h ++ Html.getTextStripList t
end

mutual
/-- `str(node)`: serialize a node back to HTML. -/
def Html.render : Html → String
  | .text s => s
  | .comment s => "<!--" ++ s ++ "-->"
  | .tag n c i ch =>
    let clsAttr := if c.isEmpty then "" else " class=\"" ++ String.intercalate " " c ++ "\""
    let idA := if i = "" then "" else " id=\"" ++ i ++ "\""
    "<" ++ n ++ clsAttr ++ idA ++ ">" ++ Html.renderList ch ++ "</" ++ n ++ ">"

def Html.renderList : List Html → String
  | [] => ""
  | h :: t => Html.render h ++ Html.renderList t
end

mutual
/-- `tag.decompose()` applied to every tag whose name is in `names`, at any
depth (the subtree is removed entirely). -/
def Html.removeTags (names : List String) : Html → List Html
  | .text s => [.text s]
  | .comment s => [.comment s]
  | .tag n c i ch =>
    if n ∈ names then [] else [.tag n c i (Html.removeTagsList names ch)]

def Html.removeTagsList (names : List String) : List Html → List Html
  | [] => []
  | h :: t => Html.removeTags names h ++ Html.removeTagsList names t
end

mutual
/-- `comment.extract()` applied to every comment node (scraper.py 121-122). -/
def Html.extractComments : Html → List Html
  | .text s => [.text s]
  | .comment _ => []
  | .tag n c i ch => [.tag n c i (Html.extractCommentsList ch)]

def Html.extractCommentsList : List Html → List Html
  | [] => []
  | h :: t => Html.extractComments h ++ Html.extractCommentsList t
end

namespace ContentFilter

def MIN_CONTENT_LENGTH : Nat := 150

def structural_junk_tags : List String := ["nav", "header", "footer", "aside"]

def media_junk_tags : List String :=
  ["script", "style", "iframe", "embed", "object", "video", "audio", "canvas",
   "svg", "img"]

def pattern_junk_tags : List String := ["figure", "form", "input", "button"]

def unwanted_patterns : List String :=
  ["advertisement", "ad-", "ads-", "banner", "promo", "promotion", "sidebar",
   "widget", "social", "share", "comment", "related", "recommended",
   "trending", "popular", "navigation", "nav-", "menu", "breadcrumb", "logo",
   "brand", "cookie", "popup", "modal", "overlay", "subscription",
   "newsletter", "signup", "login", "search", "filter", "pagination",
   "pager", "tags", "category", "metadata"]

/-- `pat` begins `l` (helper for Python substring containment). -/
def startsWithSeq : List Char → List Char → Bool
  | [], _ => true
  | _ :: _, [] => false
  | a :: pt, b :: lt => a == b && startsWithSeq pt lt

/-- Python `pat in text`: `pat` occurs contiguously somewhere in `l`. -/
def containsSeq (pat : List Char) : List Char → Bool
  | [] => pat.isEmpty
  | b :: lt => startsWithSeq pat (b :: lt) || containsSeq pat lt

/-- `ContentFilter._has_unwanted_pattern` (scraper.py 76-83): any pattern is a
substring of the lowercased `" ".join(classes) + " " + element_id`. -/
def has_unwanted_pattern (classes : List String) (idAttr : String) : Bool :=
  let text_to_check := String.intercalate " " classes ++ " " ++ idAttr
  unwanted_patterns.any (fun p => containsSeq p.toList text_to_check.toLower.toList)

end ContentFilter

mutual
/-- The pattern-junk removal of stage 3 (scraper.py 134-140): decompose every
element, at any depth, whose class/id carries an unwanted pattern (an element
inside an already-decomposed ancestor is skipped by the `parent is not None`
guard, which the top-down recursion reproduces). -/
def Html.removePatternJunk : Html → List Html
  | .text s => [.text s]
  | .comment s => [.comment s]
  | .tag n c i ch =>
    if ContentFilter.has_unwanted_pattern c i then []
    else [.tag n c i (Html.removePatternJunkList ch)]

def Html.removePatternJunkList : List Html → List Html
  | [] => []
  | h :: t => Html.removePatternJunk h ++ Html.removePatternJunkList t
end

mutual
/-- `tag.unwrap()` applied (recursively, matching the snapshot-then-unwrap
loops of scraper.py 154-173) to every tag whose name satisfies `p`: the tag is
replaced by its children. -/
def Html.unwrapIf (p : String → Bool) : Html → List Html
  | .text s => [.text s]
  | .comment s => [.comment s]
  | .tag n c i ch =>
    if p n then Html.unwrapIfList p ch else [.tag n c i (Html.unwrapIfList p ch)]

def Html.unwrapIfList (p : String → Bool) : List Html → List Html
  | [] => []
  | h :: t => Html.unwrapIf p h ++ Html.unwrapIfList p t
end

mutual
/-- `soup.find("body")`: first tag named `body` in depth-first preorder,
returned as its components. -/
def Html.findBody : Html → Option (String × List String × String × List Html)
  | .text _ => none
  | .comment _ => none
  | .tag n c i ch =>
    if n = "body" then some (n, c, i, ch) else Html.findBodyList ch

def Html.findBodyList : List Html → Option (String × List String × String × List Html)
  | [] => none
  | h :: t =>
    match Html.findBody h with
    | some b => some b
    | none => Html.findBodyList t
end

namespace ContentFilter

/-- Stage 1 action (scraper.py 106-109): decompose the structural junk tags. -/
def stage1_action (soup : List Html) : List Html :=
  Html.removeTagsList structural_junk_tags soup

/-- Stage 2 action (scraper.py 117-122): decompose media/script tags, then
extract comments. -/
def stage2_action (soup : List Html) : List Html :=
  Html.extractCommentsList (Html.removeTagsList media_junk_tags soup)

/-- Stage 3 action (scraper.py 130-140): decompose the pattern junk tags, then
every element with an unwanted class/id pattern. -/
def stage3_action (soup : List Html) : List Html :=
  Html.removePatternJunkList (Html.removeTagsList pattern_junk_tags soup)

/-- `ContentFilter._run_stage` (scraper.py 85-94): run the stage's action;
when the remaining visible-text length falls below `MIN_CONTENT_LENGTH`, the
stage's result is discarded and the previous stage's output is returned
instead. -/
def run_stage (action : List Html → List Html)
    (soup last_successful : List Html) : List Html :=
  let s := action soup
  if (Html.getTextStripList s).length < MIN_CONTENT_LENGTH then last_successful
  else s

/-- The structural tags kept by the final processing (scraper.py 157-170). -/
def structural_tags : List String :=
  ["p", "h1", "h2", "h3", "h4", "h5", "h6", "blockquote", "li", "ul", "ol", "br"]

/-- `ContentFilter.filter_content` (scraper.py 96-175): three staged cleanings
with per-stage rollback, then final processing: no `body` tag → return the
original HTML; otherwise unwrap links, unwrap non-structural tags, and return
`str(body)`. -/
def filter_content (soup : List Html) : String :=
  let original := soup
  let s1 := run_stage stage1_action original original
  let s2 := run_stage stage2_action s1 s1
  let s3 := run_stage stage3_action s2 s2
  match Html.findBodyList s3 with
  | none => Html.renderList original
  | some (n, cls, idAttr, ch) =>
    let ch1 := Html.unwrapIfList (fun m => m == "a") ch
    let ch2 := Html.unwrapIfList (fun m => !(structural_tags.contains m)) ch1
    Html.render (.tag n cls idAttr ch2)

end ContentFilter

/-! ## Spec-side definitions

Definitions transcribed from the specification's wording, for comparison with
the code-side definitions above. -/

/-- Spec (section 3, IncidentRecord identity): the canonical tuple "vessel/actor
name, event date, event location — each defaulted to a stable sentinel string
when absent", joined as the code's `f"{name}_{date}_{location}"`. -/
def specCanonicalTuple (d : ExtractedIncidentData) : String :=
  let name :=
    match d.catchSourceInformation with
    | some c =>
      match c.vesselName with
      | some v => if v ≠ "" then v else "default_vessel"
      | none => "default_vessel"
    | none => "default_vessel"
  let date :=
    match d.eventData with
    | some e =>
      match e.eventDate with
      | some dt => if dt ≠ "" then dt else "default_date"
      | none => "default_date"
    | none => "default_date"
  let location :=
    match d.eventData with
    | some e => if e.eventLocation ≠ "" then e.eventLocation else "default_location"
    | none => "default_location"
  name ++ "_" ++ date ++ "_" ++ location

/-- Spec (section 4.5): "look up existing incidents sharing the same derived
fingerprint" as the candidate's canonical tuple. -/
def specFingerprintMatches (stored : List IncidentReport)
    (cand : ExtractedIncidentData) : List IncidentReport :=
  stored.filter (fun r =>
    r.incident_fingerprint = some (sha256hex (specCanonicalTuple cand)))

/-- Spec (section 4.5): the fallback heuristic, "the same vessel name". -/
def specVesselMatches (stored : List IncidentReport)
    (cand : ExtractedIncidentData) : List IncidentReport :=
  stored.filter (fun r =>
    r.extracted_information.catchSourceInformation.bind (fun c => c.vesselName) =
      cand.catchSourceInformation.bind (fun c => c.vesselName))

/-! ## Claim C3 — bidirectional link consistency -/

/-- C3: after `add_source(I, S, is_primary=True)`, `S`'s id is in `I.sources`,
`I`'s id is in `S.incidents`, and `I.primary_source` is `S`; after
`remove_source(J, T)` where `T` was primary, the new primary is a remaining
linked source or `None` — never the detached `T`, whose id is gone from
`J.sources`. -/
theorem claim_C3_bidirectional_links
    (I : IncidentReport) (S : Source) (J : IncidentReport) (T : Source)
    (hprim : J.primary_source = some T.id) :
    (S.id ∈ (I.add_source S true).1.sources ∧
      I.id ∈ (I.add_source S true).2.incidents ∧
      (I.add_source S true).1.primary_source = some S.id) ∧
    (T.id ∉ (J.remove_source T).1.sources ∧
      ((J.remove_source T).1.primary_source = none ∨
        ∃ sid, (J.remove_source T).1.primary_source = some sid ∧
          sid ∈ (J.remove_source T).1.sources ∧ sid ≠ T.id)) := by
  constructor
  · refine ⟨?_, ?_, ?_⟩
    · by_cases h : S.id ∈ I.sources <;> simp [IncidentReport.add_source, h]
    · by_cases h : I.id ∈ T.incidents <;>
        by_cases h2 : I.id ∈ S.incidents <;> simp [IncidentReport.add_source, h, h2]
    · simp [IncidentReport.add_source]
  · have hsrc : (J.remove_source T).1.sources =
        J.sources.filter (fun sid => sid ≠ T.id) := rfl
    have hpr : (J.remove_source T).1.primary_source =
        (if J.primary_source = some T.id then
          (J.sources.filter (fun sid => sid ≠ T.id)).head?
        else J.primary_source) := rfl
    constructor
    · rw [hsrc]
      intro hmem
      simpa using (List.mem_filter.mp hmem).2
    · rw [hpr, if_pos hprim]
      rcases hl : J.sources.filter (fun sid => sid ≠ T.id) with _ | ⟨sid, rest⟩
      · left
        rfl
      · right
        refine ⟨sid, rfl, ?_, ?_⟩
        · rw [hsrc, hl]
          exact List.mem_cons_self _ _
        · have hmem : sid ∈ J.sources.filter (fun sid => sid ≠ T.id) := by
            rw [hl]
            exact List.mem_cons_self _ _
          simpa using (List.mem_filter.mp hmem).2

/-- Witness for C3 at concrete records. -/
theorem claim_C3_bidirectional_links_witness :
    ({ id := 7, incident_fingerprint := some "fp7", sources := [4, 5],
       primary_source := some 4,
       extracted_information :=
         { catchSourceInformation := none, eventData := none } } :
        IncidentReport).primary_source = some (4 : Nat) ∧
    (5 ∈ (IncidentReport.add_source
        { id := 7, incident_fingerprint := some "fp7", sources := [4, 5],
          primary_source := some 4,
          extracted_information :=
            { catchSourceInformation := none, eventData := none } }
        { id := 5, url := none, article_text := "t", article_hash := "h",
          article_scope := none, incidents := [] } true).1.sources) := by
  have h := claim_C3_bidirectional_links
    { id := 7, incident_fingerprint := some "fp7", sources := [4, 5],
      primary_source := some 4,
      extracted_information :=
        { catchSourceInformation := none, eventData := none } }
    { id := 5, url := none, article_text := "t", article_hash := "h",
      article_scope := none, incidents := [] }
    { id := 7, incident_fingerprint := some "fp7", sources := [4, 5],
      primary_source := some 4,
      extracted_information :=
        { catchSourceInformation := none, eventData := none } }
    { id := 4, url := none, article_text := "t", article_hash := "h",
      article_scope := none, incidents := [] }
    (by decide)
  exact ⟨by decide, h.1.1⟩

/-! ## Claim C2 — cascade-safe deletion -/

def exampleIncidentData : ExtractedIncidentData :=
  { catchSourceInformation := some { vesselName := some "F/V Example" },
    eventData := some { eventDate := some "2024-01-01", eventLocation := "Port A" } }

def sourceA : Source :=
  { id := 10, url := some "http://example.com/a", article_text := "text a",
    article_hash := sha256hex "text a", article_scope := none, incidents := [1] }

def incidentA : IncidentReport :=
  { id := 1, incident_fingerprint := some "fp", sources := [10],
    primary_source := some 10, extracted_information := exampleIncidentData }

def dbA : Database :=
  { sources := [sourceA], incidents := [incidentA], overviews := [], logs := [],
    nextId := 20 }

/-- C2 (code bug evaluation): deleting `incidentA` removes the incident
document, but `sourceA`'s `incidents` list still contains the deleted
incident's id — the `self.remove_source(source)` call inside `delete` is a
coroutine that is never awaited.  The very helper it names, had it been
awaited, would have cleared the back-reference (last conjunct). -/
theorem claim_C2_dangling_reference :
    (dbA.deleteIncident incidentA).incidents = [] ∧
    (dbA.deleteIncident incidentA).sources = [sourceA] ∧
    ((dbA.deleteIncident incidentA).sources.any
      (fun s => s.incidents.contains incidentA.id)) = true ∧
    (incidentA.remove_source sourceA).2.incidents = [] := by
  refine ⟨by decide, by decide, by decide, by decide⟩

/-! ## Claim C10 — fingerprint frame property -/

/-- C10: the before-save hook leaves the record untouched when
`incident_fingerprint` is already truthy; when it is unset, the fingerprint
becomes the hash of the canonical vessel/date/location tuple with sentinel
defaults. -/
theorem claim_C10_fingerprint_frame (r : IncidentReport) :
    (strTruthy r.incident_fingerprint = true → r.generate_fingerprint = r) ∧
    (strTruthy r.incident_fingerprint = false →
      (r.generate_fingerprint).incident_fingerprint =
        some (sha256hex (specCanonicalTuple r.extracted_information))) := by
  constructor
  · intro h
    simp [IncidentReport.generate_fingerprint, h]
  · intro h
    simp only [IncidentReport.generate_fingerprint, h, Bool.false_eq_true, if_false]
    rfl

/-- Witness for C10: a set fingerprint survives insert/replace unchanged; an
unset one is derived with all three sentinels. -/
theorem claim_C10_fingerprint_frame_witness :
    IncidentReport.generate_fingerprint
        { id := 3, incident_fingerprint := some "already-set", sources := [],
          primary_source := none,
          extracted_information :=
            { catchSourceInformation := none, eventData := none } } =
      { id := 3, incident_fingerprint := some "already-set", sources := [],
        primary_source := none,
        extracted_information :=
          { catchSourceInformation := none, eventData := none } } ∧
    (IncidentReport.generate_fingerprint
        { id := 4, incident_fingerprint := none, sources := [],
          primary_source := none,
          extracted_information :=
            { catchSourceInformation := none, eventData := none } }).incident_fingerprint =
      some (sha256hex "default_vessel_default_date_default_location") := by
  constructor
  · exact (claim_C10_fingerprint_frame _).1 (by decide)
  · exact (claim_C10_fingerprint_frame
      { id := 4, incident_fingerprint := none, sources := [],
        primary_source := none,
        extracted_information :=
          { catchSourceInformation := none, eventData := none } }).2 (by decide)

/-! ## Claim C9 — duplicate-candidate lookup -/

def candNoVessel : ExtractedIncidentData :=
  { catchSourceInformation := none, eventData := none }

def incidentDefaultFp : IncidentReport :=
  { id := 2,
    incident_fingerprint :=
      some (sha256hex "default_vessel_default_date_default_location"),
    sources := [], primary_source := none,
    extracted_information := { catchSourceInformation := none, eventData := none } }

/-- C9 counterexample: a candidate with no vessel name and a stored incident
sharing its derived fingerprint (and its — absent — vessel name):
`find_potential_duplicates` returns neither the fingerprint-sharers nor the
vessel-name-sharers; it returns the empty list. -/
theorem claim_C9_counterexample :
    IncidentReport.find_potential_duplicates [incidentDefaultFp] candNoVessel = [] ∧
    specFingerprintMatches [incidentDefaultFp] candNoVessel = [incidentDefaultFp] ∧
    specVesselMatches [incidentDefaultFp] candNoVessel = [incidentDefaultFp] := by
  refine ⟨by decide, by decide, by decide⟩

/-- C9 amended: when the candidate's vessel name is present (truthy), the
lookup returns exactly the stored incidents sharing that vessel name — a pure,
advisory query over the store; when the vessel name is absent or empty, it
returns the empty list, performing no fingerprint lookup at all. -/
theorem claim_C9_amended (stored : List IncidentReport)
    (cand : ExtractedIncidentData)
    (h : strTruthy (cand.catchSourceInformation.bind (fun c => c.vesselName)) = true) :
    IncidentReport.find_potential_duplicates stored cand =
      specVesselMatches stored cand ∧
    (∀ r ∈ IncidentReport.find_potential_duplicates stored cand, r ∈ stored) ∧
    (∀ cand2 : ExtractedIncidentData,
      strTruthy (cand2.catchSourceInformation.bind (fun c => c.vesselName)) = false →
      IncidentReport.find_potential_duplicates stored cand2 = []) := by
  refine ⟨?_, ?_, ?_⟩
  · rcases hv : cand.catchSourceInformation.bind (fun c => c.vesselName) with _ | v
    · rw [hv] at h
      simp [strTruthy] at h
    · rw [hv] at h
      have hne : v ≠ "" := by
        simpa [strTruthy] using h
      simp [IncidentReport.find_potential_duplicates, specVesselMatches, hv, hne]
  · intro r hr
    rcases hv : cand.catchSourceInformation.bind (fun c => c.vesselName) with _ | v
    · simp [IncidentReport.find_potential_duplicates, hv] at hr
    · by_cases hne : v ≠ ""
      · rw [IncidentReport.find_potential_duplicates, hv] at hr
        simp only [if_pos hne] at hr
        exact (List.mem_filter.mp hr).1
      · simp [IncidentReport.find_potential_duplicates, hv, hne] at hr
  · intro cand2 h2
    rcases hv : cand2.catchSourceInformation.bind (fun c => c.vesselName) with _ | v
    · simp [IncidentReport.find_potential_duplicates, hv]
    · rw [hv] at h2
      have : v = "" := by
        by_contra hne
        simp [strTruthy, hne] at h2
      simp [IncidentReport.find_potential_duplicates, hv, this]

/-- Witness for C9 amended, at a candidate naming the example vessel. -/
theorem claim_C9_amended_witness :
    strTruthy (exampleIncidentData.catchSourceInformation.bind
      (fun c => c.vesselName)) = true ∧
    IncidentReport.find_potential_duplicates [incidentA] exampleIncidentData =
      specVesselMatches [incidentA] exampleIncidentData :=
  ⟨by decide, (claim_C9_amended [incidentA] exampleIncidentData (by decide)).1⟩

/-! ## Claim C5 — fingerprint stability across saves -/

def c5_stored0 : Source :=
  { id := 1, url := none, article_text := "text one",
    article_hash := sha256hex "text one", article_scope := none, incidents := [] }

def c5_db1 : Database :=
  { sources := [c5_stored0], incidents := [], overviews := [], logs := [],
    nextId := 2 }

def c5_modified : Source := { c5_stored0 with article_text := "text two" }

def c5_saved : Source :=
  { c5_stored0 with article_text := "text two", article_hash := sha256hex "text two" }

/-- C5 counterexample: a document is created from "text one" (hash derived at
creation and stored at first persistence); its text is then modified and the
document saved.  The before-Replace hook `generate_hash` re-derives the hash
from the CURRENT text, so the stored `article_hash` after the save differs
from the fingerprint computed at first persistence. -/
theorem claim_C5_counterexample :
    Database.empty.insertSource (Source.make "text one" none) =
      .ok (c5_db1, c5_stored0) ∧
    c5_db1.saveSource c5_modified =
      .ok ({ c5_db1 with sources := [c5_saved] }, c5_saved) ∧
    c5_saved.article_hash ≠ c5_stored0.article_hash := by
  refine ⟨by decide, by decide, by decide⟩

/-- C5 amended: every insert and every replace re-derives `article_hash` from
the document's current `article_text` — the hash is a pure function of the
current content (so saving with unchanged text preserves it), not a value
frozen at first persistence. -/
theorem claim_C5_amended (db : Database) (doc : Source)
    (h : doc.article_text ≠ "") :
    (∀ db' stored, db.insertSource doc = .ok (db', stored) →
      stored.article_hash = sha256hex doc.article_text) ∧
    (∀ db' saved, db.saveSource doc = .ok (db', saved) →
      saved.article_hash = sha256hex doc.article_text) := by
  have hg : doc.generate_hash = { doc with article_hash := sha256hex doc.article_text } := by
    rw [Source.generate_hash, if_pos h]
  constructor
  · intro db' stored hok
    rw [Database.insertSource, hg] at hok
    split at hok
    · exact absurd hok (by simp)
    · split at hok
      · exact absurd hok (by simp)
      · injection hok with h2
        have := congrArg Prod.snd h2
        simp at this
        rw [← this]
  · intro db' saved hok
    rw [Database.saveSource, hg] at hok
    split at hok
    · exact absurd hok (by simp)
    · injection hok with h2
      have := congrArg Prod.snd h2
      simp at this
      rw [← this]

/-- Witness for C5 amended at the concrete insert of "text one". -/
theorem claim_C5_amended_witness :
    ("text one" : String) ≠ "" ∧ c5_stored0.article_hash = sha256hex "text one" :=
  ⟨by decide,
    (claim_C5_amended Database.empty (Source.make "text one" none) (by decide)).1
      c5_db1 c5_stored0 (by decide)⟩

/-! ## Claim C6 — audit log on insert -/

def c6_stored : Source :=
  { id := 1, url := none, article_text := "hello world",
    article_hash := sha256hex "hello world", article_scope := none, incidents := [] }

def c6_db1 : Database :=
  { sources := [c6_stored], incidents := [], overviews := [], logs := [],
    nextId := 2 }

/-- C6 (code bug evaluation): inserting a `Source` emits ZERO audit log
entries — `Source` (like `IncidentReport`) does not inherit `LogMixin`, so the
`_log_insert` handler that would have produced the one entry is never
registered.  The claim demands exactly one entry per insert. -/
theorem claim_C6_insert_emits_no_log :
    Database.empty.insertSource (Source.make "hello world" none) =
      .ok (c6_db1, c6_stored) ∧
    c6_db1.logs.length = 0 ∧
    Source.afterInsertLogs c6_stored = [] ∧
    LogMixin.log_insert "sources" c6_stored.id =
      { document_id := 1, collection_name := "sources", operation := "insert" } := by
  refine ⟨by decide, by decide, by decide, by decide⟩

/-! ## Shared lemmas about the hooks and the pipeline -/

theorem sha256hex_ne_empty (s : String) : sha256hex s ≠ "" := by
  intro h
  have hlen := congrArg String.length h
  rw [sha256hex, String.length_append] at hlen
  have h1 : ("sha256:" : String).length = 7 := rfl
  have h2 : ("" : String).length = 0 := rfl
  omega

theorem strTruthy_sha256hex (s : String) : strTruthy (some (sha256hex s)) = true := by
  simp [strTruthy, sha256hex_ne_empty s]

/-- `AnalysisPipeline.run` on an unclassified source whose text classifies as
a single incident and extracts successfully. -/
theorem run_single (ext : Externals) (src : Source) (c : ArticleScopeClassification)
    (p : Option ExtractedIncidentData)
    (h1 : src.article_scope = none)
    (h2 : ext.classify src.article_text = some c)
    (h3 : c.articleType = ArticleType.singleIncident)
    (h4 : ext.extractSingle src.article_text = some p) :
    AnalysisPipeline.run ext src =
      (some (.singleData p), { src with article_scope := some c },
        [Ev.classifierCall, Ev.extractionCall]) := by
  simp only [AnalysisPipeline.run, h1, h2, AnalysisPipeline.routeScope, h3]
  simp [h4]

/-- `AnalysisOrchestrator.analysisPhase` on the same path. -/
theorem phase_single (ext : Externals) (src : Source)
    (c : ArticleScopeClassification) (pd : ExtractedIncidentData)
    (h1 : src.article_scope = none)
    (h2 : ext.classify src.article_text = some c)
    (h3 : c.articleType = ArticleType.singleIncident)
    (h4 : ext.extractSingle src.article_text = some (some pd)) :
    AnalysisOrchestrator.analysisPhase ext src =
      ({ status := .success, source := some { src with article_scope := some c },
         incidents := [{ id := 0, incident_fingerprint := none, sources := [],
                         primary_source := none, extracted_information := pd }],
         industry_overview := none, error_message := none },
       [Ev.classifierCall, Ev.extractionCall]) := by
  rw [AnalysisOrchestrator.analysisPhase, run_single ext src c (some pd) h1 h2 h3 h4]
  rfl

/-- A store already holding one unclassified document for the URL — the only
way the analysis phase is reachable, since the fresh-URL arm always fails
extraction before producing a document (e.g. a record ingested by an earlier
version of the code or seeded directly into the collection). -/
def seededDb (url text : String) : Database :=
  { sources := [{ id := 1, url := some url, article_text := text,
                  article_hash := sha256hex text, article_scope := none,
                  incidents := [] }],
    incidents := [], overviews := [], logs := [], nextId := 2 }

/-- The service run on the URL of a stored, unclassified single-incident
document: `from_url` returns the existing document, the pipeline classifies
it (scope assigned only in memory) and extracts, and then
`IncidentService._create_report` calls `insert()` on that already-persisted
document — the unique index on `article_hash` rejects the insert, the
`DuplicateKeyError` is re-raised, and nothing (in particular not the scope)
is ever persisted. -/
theorem service_existing_single (ext : Externals) (url text : String)
    (c : ArticleScopeClassification) (pd : ExtractedIncidentData)
    (htext : text ≠ "")
    (hclass : ext.classify text = some c)
    (htype : c.articleType = ArticleType.singleIncident)
    (hext : ext.extractSingle text = some (some pd)) :
    IncidentService.create_report_from_url ext (seededDb url text) url =
      (seededDb url text, .error (.db .duplicateKey),
       [Ev.classifierCall, Ev.extractionCall]) := by
  have hfind : (seededDb url text).findSourceByUrl url =
      some { id := 1, url := some url, article_text := text,
             article_hash := sha256hex text, article_scope := none,
             incidents := [] } := by
    simp [seededDb, Database.findSourceByUrl, List.find?]
  have hrun : AnalysisOrchestrator.run_full_analysis_from_url ext
      (seededDb url text) url =
      ({ status := .success,
         source := some { id := 1, url := some url, article_text := text,
                          article_hash := sha256hex text, article_scope := some c,
                          incidents := [] },
         incidents := [{ id := 0, incident_fingerprint := none, sources := [],
                         primary_source := none, extracted_information := pd }],
         industry_overview := none, error_message := none },
       [Ev.classifierCall, Ev.extractionCall]) := by
    rw [AnalysisOrchestrator.run_full_analysis_from_url]
    simp only [hfind]
    rw [phase_single ext _ c pd rfl (by simpa using hclass) htype (by simpa using hext)]
  rw [IncidentService.create_report_from_url, hrun]
  have hgen : Source.generate_hash
      { id := 1, url := some url, article_text := text,
        article_hash := sha256hex text, article_scope := some c, incidents := [] } =
      { id := 1, url := some url, article_text := text,
        article_hash := sha256hex text, article_scope := some c, incidents := [] } := by
    rw [Source.generate_hash, if_pos htext]
  rw [IncidentService.create_report]
  simp only [Database.insertSource, hgen, seededDb]
  simp

/-! ## Claim C1 — deduplication on resubmission -/

def extUnrelated : Externals :=
  { scrape := fun u =>
      if u == "http://example.com/story" then some "unrelated article body" else none,
    classify := fun _ => some { articleType := .unrelated },
    extractSingle := fun _ => none,
    extractOverview := fun _ => none }

def c1_run1 : Database × ApiResult × List Ev :=
  handle_json_url extUnrelated Database.empty "http://example.com/story"

def c1_run2 : Database × ApiResult × List Ev :=
  handle_json_url extUnrelated c1_run1.1 "http://example.com/story"

/-- C1 counterexample: submitting the same fresh URL (identical content)
twice.  NO document is ever persisted — the extraction step fails
unconditionally before a `Source` exists (scraper.py 266-271 builds
`ArticleData` without its required `text` field; content_extraction.py 25
reads the nonexistent `prediction.source`) — so after both submissions the
store holds ZERO documents with the content fingerprint, not exactly one, and
the second submission returns the FAILED_EXTRACTION outcome referencing no
record (the `PipelineResult` enum has no duplicate-detected member). -/
theorem claim_C1_counterexample :
    c1_run1 = (Database.empty,
      .ok { status := .failed_extraction, source := none, incidents := [],
            industry_overview := none,
            error_message := some "content extraction failed" }, []) ∧
    c1_run2 = c1_run1 ∧
    (c1_run2.1.sources.filter
      (fun d => d.article_hash == sha256hex "unrelated article body")).length = 0 ∧
    c1_run2.1.sources = [] := by
  refine ⟨by decide, by decide, by decide, by decide⟩

/-- C1 amended: no submission can return a duplicate-detected success — the
outcome enum has no such member and the URL path never persists anything.  A
URL already in the store is rejected with HTTP 409 (store untouched); an
insert whose content hash is already stored fails with `DuplicateKeyError`
(so the unique index does keep at most one document per fingerprint); and
every fresh-URL submission returns FAILED_EXTRACTION with no source and no
store change, because content extraction raises before a document exists —
hence a repeat submission of the same URL persists zero documents and gets
the same FAILED_EXTRACTION outcome again, never a reference to an existing
record. -/
theorem claim_C1_amended (ext : Externals) (url : String) :
    (∀ db : Database, ∀ d : Source, db.findSourceByUrl url = some d →
      handle_json_url ext db url =
        (db, .httpError 409 ("Source already exists for " ++ url), [])) ∧
    (∀ db2 : Database, ∀ doc : Source,
      db2.sources.any
        (fun x => x.article_hash == (doc.generate_hash).article_hash) = true →
      db2.insertSource doc = .error .duplicateKey) ∧
    (∀ db : Database, db.findSourceByUrl url = none →
      handle_json_url ext db url =
        (db, .ok { status := .failed_extraction, source := none, incidents := [],
                   industry_overview := none,
                   error_message := some "content extraction failed" }, [])) := by
  refine ⟨?_, ?_, ?_⟩
  · intro db d h
    rw [handle_json_url]
    simp only [h]
  · intro db2 doc h
    rw [Database.insertSource]
    simp only [h, if_true]
  · intro db h
    have hsvc : IncidentService.create_report_from_url ext db url =
        (db, .ok { status := .failed_extraction, source := none, incidents := [],
                   industry_overview := none,
                   error_message := some "content extraction failed" }, []) := by
      rw [IncidentService.create_report_from_url,
        AnalysisOrchestrator.run_full_analysis_from_url]
      simp only [h]
      rcases hs : ext.scrape url with _ | t <;>
        simp [IncidentService.create_report]
    rw [handle_json_url]
    simp only [h, hsvc]

/-- Witness for C1 amended: the concrete two-submission scenario. -/
theorem claim_C1_amended_witness :
    Database.empty.findSourceByUrl "http://example.com/story" = none ∧
    handle_json_url extUnrelated Database.empty "http://example.com/story" =
      (Database.empty,
       .ok { status := .failed_extraction, source := none, incidents := [],
             industry_overview := none,
             error_message := some "content extraction failed" }, []) :=
  ⟨rfl,
    (claim_C1_amended extUnrelated "http://example.com/story").2.2
      Database.empty rfl⟩

/-! ## Claim C4 — partial success for multi-incident documents -/

def extMulti : Externals :=
  { scrape := fun _ => some "Three incidents: one. two. three.",
    classify := fun _ => some { articleType := .multipleIncidents },
    extractSingle := fun _ => none,
    extractOverview := fun _ => none }

def c4_run : PipelineOutput × List Ev :=
  AnalysisOrchestrator.run_full_analysis_from_url extMulti
    (seededDb "http://example.com/multi" "Three incidents: one. two. three.")
    "http://example.com/multi"

/-- C4 (code bug evaluation): a document whose analysis classifies it as
`Multiple Incidents` (here a stored document, the only way the analysis phase
is reachable) makes the whole run fail.  (1) The extraction module's line
`self.multiIncident.acall(...)` names an attribute that does not exist
(`__init__` defines `multiIncidentText`), so the pipeline raises before any
span is split: the run returns FAILED_ANALYSIS with zero incident records.
(2) Even the downstream per-span loop (news_analysis.py 115-136) could not
report `n-1` successes plus one attributed failure: a `None` placeholder in
`incident_list` fails `PipelineOutput` validation, collapsing the run to
FAILED_FORMATTING with an empty incidents list. -/
theorem claim_C4_multi_total_failure :
    (c4_run.1.status = PipelineResult.failed_analysis ∧
      c4_run.1.incidents = [] ∧
      c4_run.2 = [Ev.classifierCall]) ∧
    ((multipleIncidentsArm sourceA [some incidentA, none, some incidentA]).status =
        PipelineResult.failed_formatting ∧
      (multipleIncidentsArm sourceA [some incidentA, none, some incidentA]).incidents = []) := by
  refine ⟨⟨by decide, by decide, by decide⟩, by decide, by decide⟩

/-! ## Claim C8 — scope persisted before extraction -/

/-- Scans a trace: `true` iff every extraction event is preceded by an earlier
persistence of the source document with its scope set. -/
def scopePersistAux : Bool → List Ev → Bool
  | _, [] => true
  | seen, Ev.extractionCall :: t => seen && scopePersistAux seen t
  | _, Ev.persistSource true :: t => scopePersistAux true t
  | seen, _ :: t => scopePersistAux seen t

def scopePersistedBeforeExtraction (tr : List Ev) : Bool := scopePersistAux false tr

def extSingle : Externals :=
  { scrape := fun u =>
      if u == "http://example.com/single" then some "single incident body" else none,
    classify := fun _ => some { articleType := .singleIncident },
    extractSingle := fun _ => some (some exampleIncidentData),
    extractOverview := fun _ => none }

def c8_db : Database := seededDb "http://example.com/single" "single incident body"

def c8_runA : Database × Except ServiceError PipelineOutput × List Ev :=
  IncidentService.create_report_from_url extSingle c8_db "http://example.com/single"

def c8_runB : Database × Except ServiceError PipelineOutput × List Ev :=
  IncidentService.create_report_from_url extSingle c8_runA.1 "http://example.com/single"

/-- C8 counterexample: a stored, unclassified single-incident document (the
only way classification is reachable — a fresh URL fails extraction first).
The run's trace is classification, then extraction, with NO persistence at
all: the scope is never persisted before extraction (the claim's demand), and
in fact never persisted afterwards either, because `_create_report`'s
`insert()` of the already-stored document fails with `DuplicateKeyError`.
The stored document still has no scope after the run, and a second run
invokes the classifier again. -/
theorem claim_C8_counterexample :
    c8_runA = (c8_db, .error (.db .duplicateKey),
      [Ev.classifierCall, Ev.extractionCall]) ∧
    scopePersistedBeforeExtraction c8_runA.2.2 = false ∧
    (c8_runA.1.sources.all (fun d => d.article_scope.isNone)) = true ∧
    (c8_runA.2.2 ++ c8_runB.2.2).count Ev.classifierCall = 2 := by
  refine ⟨by decide, by decide, by decide, by decide⟩

/-- C8 amended: on a stored document with no scope set, one analysis run
invokes the classifier exactly once and assigns the scope only to the
IN-MEMORY object before extraction; nothing persists it — not before the
extraction work (so a crash between classification and extraction loses it),
and with the code as it stands not even afterwards, since `_create_report`
re-inserts the already-persisted document and the unique hash index rejects
it.  The store is left unchanged and a repeat run classifies the same
document again. -/
theorem claim_C8_amended (ext : Externals) (url text : String)
    (c : ArticleScopeClassification) (pd : ExtractedIncidentData)
    (htext : text ≠ "")
    (hclass : ext.classify text = some c)
    (htype : c.articleType = ArticleType.singleIncident)
    (hext : ext.extractSingle text = some (some pd)) :
    IncidentService.create_report_from_url ext (seededDb url text) url =
      (seededDb url text, .error (.db .duplicateKey),
       [Ev.classifierCall, Ev.extractionCall]) ∧
    scopePersistedBeforeExtraction
      (IncidentService.create_report_from_url ext (seededDb url text) url).2.2 =
      false ∧
    (IncidentService.create_report_from_url ext (seededDb url text) url).2.2.count
      Ev.classifierCall = 1 ∧
    ((IncidentService.create_report_from_url ext (seededDb url text) url).2.2 ++
      (IncidentService.create_report_from_url ext
        (IncidentService.create_report_from_url ext (seededDb url text) url).1
        url).2.2).count Ev.classifierCall = 2 := by
  have h := service_existing_single ext url text c pd htext hclass htype hext
  refine ⟨h, ?_, ?_, ?_⟩
  · rw [h]
    rfl
  · rw [h]
    rfl
  · simp only [h]
    rfl

/-- Witness for C8 amended at the concrete stored single-incident document. -/
theorem claim_C8_amended_witness :
    ("single incident body" : String) ≠ "" ∧
    extSingle.classify "single incident body" =
      some { articleType := .singleIncident } ∧
    IncidentService.create_report_from_url extSingle
        (seededDb "http://example.com/single" "single incident body")
        "http://example.com/single" =
      (seededDb "http://example.com/single" "single incident body",
       .error (.db .duplicateKey), [Ev.classifierCall, Ev.extractionCall]) :=
  ⟨by decide, by decide,
    (claim_C8_amended extSingle "http://example.com/single" "single incident body"
      { articleType := .singleIncident } exampleIncidentData
      (by decide) rfl rfl rfl).1⟩

/-! ## Claim C7 — degrade, never destroy -/

theorem pyStrip_length_le (s : String) : (pyStrip s).length ≤ s.length := by
  have h1 : ∀ (p : Char → Bool) (l : List Char), (l.dropWhile p).length ≤ l.length := by
    intro p l
    exact (List.dropWhile_sublist p (l := l)).length_le
  calc (pyStrip s).length
      = (((s.toList.dropWhile Char.isWhitespace).reverse.dropWhile
          Char.isWhitespace).reverse).length := rfl
    _ = ((s.toList.dropWhile Char.isWhitespace).reverse.dropWhile
          Char.isWhitespace).length := by rw [List.length_reverse]
    _ ≤ (s.toList.dropWhile Char.isWhitespace).reverse.length := h1 _ _
    _ = (s.toList.dropWhile Char.isWhitespace).length := by rw [List.length_reverse]
    _ ≤ s.toList.length := h1 _ _
    _ = s.length := rfl

mutual
/-- A node's visible (stripped) text is never longer than its serialization. -/
theorem getTextStrip_length_le : ∀ h : Html,
    (Html.getTextStrip h).length ≤ (Html.render h).length
  | .text s => by
    simpa [Html.getTextStrip, Html.render] using pyStrip_length_le s
  | .comment s => by
    have h1 := pyStrip_length_le s
    simp only [Html.getTextStrip, Html.render, String.length_append]
    have h2 : ("<!--" : String).length = 4 := rfl
    have h3 : ("-->" : String).length = 3 := rfl
    omega
  | .tag n c i ch => by
    have h1 := getTextStripList_length_le ch
    simp only [Html.getTextStrip, Html.render, String.length_append]
    omega

theorem getTextStripList_length_le : ∀ l : List Html,
    (Html.getTextStripList l).length ≤ (Html.renderList l).length
  | [] => le_refl _
  | h :: t => by
    have h1 := getTextStrip_length_le h
    have h2 := getTextStripList_length_le t
    simp only [Html.getTextStripList, Html.renderList, String.length_append]
    omega
end

/-- A forest holding at least one visible character serializes to a non-empty
string. -/
theorem renderList_ne_empty (l : List Html)
    (h : 1 ≤ (Html.getTextStripList l).length) : Html.renderList l ≠ "" := by
  intro hcontra
  have hle := getTextStripList_length_le l
  rw [hcontra] at hle
  have h0 : ("" : String).length = 0 := rfl
  omega

/-- `str(body)` always carries the tag markup and is non-empty. -/
theorem render_tag_ne_empty (n : String) (c : List String) (i : String)
    (ch : List Html) : Html.render (Html.tag n c i ch) ≠ "" := by
  intro hcontra
  have hlen := congrArg String.length hcontra
  simp only [Html.render, String.length_append] at hlen
  have h1 : ("<" : String).length = 1 := rfl
  have h0 : ("" : String).length = 0 := rfl
  omega

/-- C7: (1) whenever a stage's action leaves fewer visible characters than
`MIN_CONTENT_LENGTH`, `_run_stage` discards the stage's result and carries the
previous stage's output forward; (2) for any parsed input with at least one
visible character, `filter_content` never returns the empty string. -/
theorem claim_C7_degrade_never_destroy
    (action : List Html → List Html) (soup last_successful : List Html)
    (h1 : (Html.getTextStripList (action soup)).length <
      ContentFilter.MIN_CONTENT_LENGTH)
    (doc : List Html) (h2 : 1 ≤ (Html.getTextStripList doc).length) :
    ContentFilter.run_stage action soup last_successful = last_successful ∧
    ContentFilter.filter_content doc ≠ "" := by
  constructor
  · rw [ContentFilter.run_stage, if_pos h1]
  · rw [ContentFilter.filter_content]
    rcases hb : Html.findBodyList
        (ContentFilter.run_stage ContentFilter.stage3_action
          (ContentFilter.run_stage ContentFilter.stage2_action
            (ContentFilter.run_stage ContentFilter.stage1_action doc doc)
            (ContentFilter.run_stage ContentFilter.stage1_action doc doc))
          (ContentFilter.run_stage ContentFilter.stage2_action
            (ContentFilter.run_stage ContentFilter.stage1_action doc doc)
            (ContentFilter.run_stage ContentFilter.stage1_action doc doc))) with
      _ | ⟨n, cls, idAttr, ch⟩
    · exact renderList_ne_empty doc h2
    · exact render_tag_ne_empty _ _ _ _

/-- Witness for C7: an all-destroying stage is rolled back, and a one-word
document filters to a non-empty string. -/
theorem claim_C7_degrade_never_destroy_witness :
    (Html.getTextStripList ((fun _ => ([] : List Html)) ([] : List Html))).length <
      ContentFilter.MIN_CONTENT_LENGTH ∧
    1 ≤ (Html.getTextStripList [Html.text "hi"]).length ∧
    ContentFilter.run_stage (fun _ => []) [] [Html.text "x"] = [Html.text "x"] ∧
    ContentFilter.filter_content [Html.text "hi"] ≠ "" :=
  ⟨by decide, by decide,
    (claim_C7_degrade_never_destroy (fun _ => []) [] [Html.text "x"] (by decide)
      [Html.text "hi"] (by decide)).1,
    (claim_C7_degrade_never_destroy (fun _ => []) [] [Html.text "x"] (by decide)
      [Html.text "hi"] (by decide)).2⟩

end NRDC
